import Mathlib

/-!
Shallow embedding of the repository `Bluetooth-heart-rate-to-VRChat`
(files `config.py`, `bluetooth_client.py`, `osc_client.py`).

Conventions of the embedding:
* Python byte strings become `List ℕ` (each element a byte value 0–255).
* Python ints become `ℤ` (or `ℕ` where the source value is a byte count).
* Python floats that the code derives exactly from small integers
  (`heart_rate / 127 - 1`, `sum / len`, `battery / 100.0`, the literal
  timeouts `15.0, 25.0, 35.0`) are modelled as `ℚ`; for the magnitudes
  involved the double-precision evaluation agrees with the rational one
  on every comparison and rounding the code performs.
* Exception control flow becomes explicit branching: a `try`/`except`
  that swallows an error becomes the corresponding `if`/default value.
* Async side effects (messages sent, callbacks invoked, sleeps) are
  returned as explicit trace fields so theorems can speak about them.
-/

namespace BtHr

/-! ### config.py — class `Config`

The class-level attribute names that `config.py` actually defines.
Attribute lookup `Config.X` succeeds exactly when `X` is in this list;
otherwise Python raises `AttributeError`. -/

def Config.classAttrs : List String :=
  ["OSC_IP", "OSC_PORT",
   "BLUETOOTH_SCAN_TIMEOUT", "BLUETOOTH_DEVICE_ADDRESS", "AUTO_CONNECT_LAST_DEVICE",
   "HEART_RATE_MIN", "HEART_RATE_MAX", "HEART_RATE_SMOOTHING", "SMOOTHING_WINDOW_SIZE",
   "RECONNECT_ATTEMPTS", "RECONNECT_DELAY", "KEEPALIVE_INTERVAL",
   "LOG_LEVEL", "LOG_TO_FILE", "LOG_FILE_PATH",
   "DEVICE_NAME_FILTER", "RSSI_THRESHOLD",
   "setup_logging", "validate_config", "print_config"]

def Config.hasAttr (s : String) : Bool := Config.classAttrs.contains s

/-- The configurable scalar settings the OSC encoder reads
(`Config.HEART_RATE_MIN/MAX/SMOOTHING`, `Config.SMOOTHING_WINDOW_SIZE`);
they come from environment variables, so the embedding is parametric in
them. -/
structure ConfigVals where
  HEART_RATE_MIN : ℤ
  HEART_RATE_MAX : ℤ
  HEART_RATE_SMOOTHING : Bool
  SMOOTHING_WINDOW_SIZE : ℕ
deriving DecidableEq

/-- Defaults from `config.py`: 40, 200, false, 5. -/
def defaultConfig : ConfigVals :=
  { HEART_RATE_MIN := 40, HEART_RATE_MAX := 200,
    HEART_RATE_SMOOTHING := false, SMOOTHING_WINDOW_SIZE := 5 }

/-! ### bluetooth_client.py — `BluetoothHeartRateClient._parse_heart_rate_data` -/

/-- `_parse_heart_rate_data(data)` (bluetooth_client.py lines 303–322):
returns 0 if `len(data) < 2`; if `data[0] & 0x01` is set, returns the
little-endian 16-bit value of `data[1:3]` (or 0 if `len(data) < 3`);
otherwise returns the 8-bit value `data[1]`. -/
def parse_heart_rate_data : List ℕ → ℕ
  | f :: b1 :: rest =>
    if f % 2 = 1 then          -- flags & 0x01
      match rest with
      | b2 :: _ => b1 + 256 * b2   -- struct.unpack('<H', data[1:3])
      | [] => 0
    else b1
  | _ => 0

/-- The decode error taxonomy of the spec (§4.1). -/
inductive DecodeError where
  | tooShort
deriving DecidableEq

/-- Spec-level decoder, written from the spec's words (§4.1) for the
refinement comparison with `parse_heart_rate_data`: fails with
`TooShort` if the payload is shorter than 2 bytes, or shorter than
3 bytes when flag bit 0 selects the 16-bit format; otherwise returns
the bpm field. -/
def decodeSpec : List ℕ → Except DecodeError ℕ
  | f :: b1 :: rest =>
    if f % 2 = 1 then
      match rest with
      | b2 :: _ => .ok (b1 + 256 * b2)
      | [] => .error .tooShort
    else .ok b1
  | _ => .error .tooShort

/-! ### bluetooth_client.py — `_heart_rate_notification_handler` -/

/-- The fields of `BluetoothHeartRateClient` the notification handler
reads or writes, plus whether a heart-rate callback was registered. -/
structure BtState where
  last_heart_rate : ℕ
  last_data_time : Option ℚ
  has_heart_rate_callback : Bool
deriving DecidableEq

structure HandlerResult where
  state : BtState
  /-- heart-rate values passed to `heart_rate_callback` during the call -/
  emitted : List ℕ
deriving DecidableEq

/-- `_heart_rate_notification_handler` (lines 280–301): parses the
payload; if the value is `> 0` it stores it, refreshes
`last_data_time` (`update_data_timestamp`, line 470–472, with the
current time `now`) and invokes the callback when one is registered;
otherwise it does nothing.  Exceptions of the callback are caught and
only logged, so they do not affect the state. -/
def heart_rate_notification_handler (st : BtState) (now : ℚ) (data : List ℕ) :
    HandlerResult :=
  let heart_rate := parse_heart_rate_data data
  if 0 < heart_rate then
    { state := { st with last_heart_rate := heart_rate, last_data_time := some now },
      emitted := if st.has_heart_rate_callback then [heart_rate] else [] }
  else
    { state := st, emitted := [] }

/-! ### bluetooth_client.py — `BluetoothHeartRateClient.connect` (lines 88–247) -/

/-- Outcome of the BLE environment for one `connect` call: for each
connection-strategy index, whether `BleakClient.connect()` succeeds
with `client.is_connected` true afterwards, and (when it fails) an
identifier of the exception it raises. -/
structure ConnectEnv where
  attemptOk : ℕ → Bool
  attemptErr : ℕ → ℕ

/-- The `connection_strategies` timeout list (lines 97–101):
`15.0, 25.0, 35.0` seconds. -/
def connection_strategies : List ℚ := [15, 25, 35]

structure StrategyLoopResult where
  /-- timeouts of the strategies attempted, in order -/
  attempted : List ℚ
  /-- the `asyncio.sleep(2)` backoff waits performed inside the loop -/
  backoffs : List ℚ
  /-- the `connected` flag after the loop (line 103/124) -/
  connected : Bool
  /-- the `last_error` variable after the loop (line 104/128) -/
  last_error : Option ℕ
deriving DecidableEq

/-- The strategy loop of `connect` (lines 106–142,
`for i, strategy in enumerate(connection_strategies)`): try each
strategy in order; on success set `connected` and break; on failure
record `last_error` and, unless this was the last strategy
(`if i < len(connection_strategies) - 1`), sleep 2 seconds before the
next attempt. -/
def strategyLoop (env : ConnectEnv) (i : ℕ) :
    List ℚ → Option ℕ → StrategyLoopResult
  | [], le => { attempted := [], backoffs := [], connected := false, last_error := le }
  | t :: rest, le =>
    if env.attemptOk i then
      { attempted := [t], backoffs := [], connected := true, last_error := le }
    else
      let r := strategyLoop env (i + 1) rest (some (env.attemptErr i))
      { attempted := t :: r.attempted,
        backoffs := (if rest.isEmpty then [] else [2]) ++ r.backoffs,
        connected := r.connected, last_error := r.last_error }

structure ConnectResult where
  attempted : List ℚ
  backoffs : List ℚ
  /-- `self.is_connected = True` was executed (line 150) — the
  `Connected` transition of the spec's state machine -/
  reached_connected : Bool
  /-- the `raise Exception("所有连接策略都失败了…")` of line 145 was
  executed — the `Failed` transition -/
  all_failed_raised : Bool
  /-- the `last_error` embedded in that raised exception -/
  surfaced_error : Option ℕ
  /-- the boolean `connect` returns to its caller -/
  ret : Bool
deriving DecidableEq

/-- `connect(device_address, device_name)` (lines 88–247).  After the
strategy loop: if not connected, line 145 raises (carrying
`last_error`), the outer handler (lines 238–247) logs it and returns
`False`.  If connected, the `is_connected` re-check of line 147 passes
(no concurrent mutation in the sequential model), line 150 sets
`is_connected = True`; the identity-characteristic reads (lines
153–184) each swallow their own errors; then line 193 evaluates
`Config.DATA_TIMEOUT`.  If `Config` had that attribute, the remaining
service discovery (lines 196–234) swallows every error and line 236
returns `True`; without it, the `AttributeError` propagates to the
outer handler, which sets `is_connected = False` and returns `False`. -/
def connect (_device_address _device_name : String) (env : ConnectEnv) : ConnectResult :=
  let loop := strategyLoop env 0 connection_strategies none
  if loop.connected then
    if Config.hasAttr "DATA_TIMEOUT" then
      { attempted := loop.attempted, backoffs := loop.backoffs,
        reached_connected := true, all_failed_raised := false,
        surfaced_error := none, ret := true }
    else
      { attempted := loop.attempted, backoffs := loop.backoffs,
        reached_connected := true, all_failed_raised := false,
        surfaced_error := none, ret := false }
  else
    { attempted := loop.attempted, backoffs := loop.backoffs,
      reached_connected := false, all_failed_raised := true,
      surfaced_error := loop.last_error, ret := false }

/-! ### bluetooth_client.py — `_monitor_data_timeout` (lines 474–501) -/

/-- One arm cycle of the staleness monitor, as a function of the trace
of checks it performs: each entry is `(now, last_data_time)` observed
at one wake-up of the `while` loop (the loop sleeps 5 seconds between
checks and runs while `is_monitoring_timeout` and `is_connected`
hold).  A `none` timestamp makes the loop `continue`; a gap strictly
greater than `timeout` fires the timeout callback once and `break`s.
The returned list is the times at which the callback fired. -/
def monitor_data_timeout (timeout : ℚ) : List (ℚ × Option ℚ) → List ℚ
  | [] => []
  | (now, lastData) :: rest =>
    match lastData with
    | none => monitor_data_timeout timeout rest
    | some t =>
      if timeout < now - t then [now]
      else monitor_data_timeout timeout rest

/-- Check wake-up times of the monitor loop: `n` checks spaced exactly
5 seconds apart starting at `c0` (the loop's `asyncio.sleep(5)`). -/
def checkTimes (c0 : ℚ) : ℕ → List ℚ
  | 0 => []
  | n + 1 => c0 :: checkTimes (c0 + 5) n

/-! ### osc_client.py — `VRChatOSCClient` -/

/-- `collections.deque(maxlen=N)` after appending `x` on the right:
keeps the most recent `N` elements, evicting from the left. -/
def pushWindow (N : ℕ) (hist : List ℤ) (x : ℤ) : List ℤ :=
  let h := hist ++ [x]
  h.drop (h.length - N)

/-- `int(round(s / l))`: Python's built-in `round` (half-way cases go
to the even neighbour) applied to the exact rational `s / l`, computed
on integers.  For the window sums and sizes that arise here the
double-precision quotient `sum / len` the source computes rounds
identically to the exact rational. -/
def pyRoundDiv (s : ℤ) (l : ℕ) : ℤ :=
  let n : ℤ := s.fdiv l          -- floor of s / l
  let r : ℤ := s - n * l         -- remainder, 0 ≤ r < l
  if 2 * r < l then n
  else if (l : ℤ) < 2 * r then n + 1
  else if n % 2 = 0 then n else n + 1

/-- `_smooth_heart_rate(heart_rate)` (lines 159–168): append the raw
value to `heart_rate_history` (a deque of max length
`SMOOTHING_WINDOW_SIZE`); with fewer than 2 samples return the raw
value, otherwise `int(round(sum / len))` of the window.  Returns the
value together with the new window. -/
def smooth_heart_rate (N : ℕ) (hist : List ℤ) (heart_rate : ℤ) : ℤ × List ℤ :=
  let h := pushWindow N hist heart_rate
  if h.length < 2 then (heart_rate, h)
  else (pyRoundDiv h.sum h.length, h)

inductive OscValue where
  | f (q : ℚ)
  | i (n : ℤ)
  | b (v : Bool)
deriving DecidableEq

structure OscMessage where
  address : String
  value : OscValue
deriving DecidableEq

/-- The mutable fields of `VRChatOSCClient` that `send_heart_rate`
touches. -/
structure OscState where
  hb_toggle : Bool
  heart_rate_history : List ℤ
  last_heart_rate : ℤ
deriving DecidableEq

/-- Initial state from `__init__` (lines 14–23): toggle `False`, empty
history, `last_heart_rate = 0`. -/
def initOscState : OscState :=
  { hb_toggle := false, heart_rate_history := [], last_heart_rate := 0 }

/-- Transport environment for one `send_heart_rate` call: the
`connected` flag, and for each OSC address whether
`client.send_message` succeeds (raises otherwise). -/
structure SendEnv where
  connected : Bool
  sendOk : String → Bool

structure SendResult where
  /-- the boolean returned by `send_heart_rate` -/
  ok : Bool
  /-- the messages whose send was attempted, in dispatch order -/
  messages : List OscMessage
  state : OscState
deriving DecidableEq

def hbToggleAddr : String := "/avatar/parameters/HeartBeatToggle"

/-- The `heartrates` message list built at lines 69–129, from the
(possibly smoothed) heart rate, the current toggle bit, and the
optional battery level. -/
def buildHeartrates (hr : ℤ) (toggle : Bool) (battery_level : Option ℤ) :
    List OscMessage :=
  [{ address := "/avatar/parameters/Heartrate", value := .f ((hr : ℚ) / 127 - 1) },
   { address := "/avatar/parameters/HeartRateFloat", value := .f ((hr : ℚ) / 127 - 1) },
   { address := "/avatar/parameters/Heartrate2", value := .f ((hr : ℚ) / 255) },
   { address := "/avatar/parameters/HeartRateFloat01", value := .f ((hr : ℚ) / 255) },
   { address := "/avatar/parameters/Heartrate3", value := .i hr },
   { address := "/avatar/parameters/HeartRateInt", value := .i hr },
   { address := hbToggleAddr, value := .b toggle }] ++
  (match battery_level with
   | some b => [{ address := "/avatar/parameters/BluetoothBattery", value := .f ((b : ℚ) / 100) }]
   | none => [])

/-- `send_heart_rate(heart_rate, battery_level)` (lines 52–157):
returns `False` when not connected, or when the heart rate is outside
`[HEART_RATE_MIN, HEART_RATE_MAX]` (both without touching any state).
Otherwise optionally smooths the value, builds the message list, and
dispatches each message under its own `try`: a failing send is only
logged and the loop continues, but the toggle flip of line 141 runs
only when the send of the `HeartBeatToggle` message itself succeeded
(an exception in `send_message` skips the flip).  Finally stores the
sent value in `last_heart_rate` and returns `True`. -/
def send_heart_rate (cfg : ConfigVals) (env : SendEnv) (st : OscState)
    (heart_rate : ℤ) (battery_level : Option ℤ) : SendResult :=
  if ¬ env.connected then { ok := false, messages := [], state := st }
  else if ¬ (cfg.HEART_RATE_MIN ≤ heart_rate ∧ heart_rate ≤ cfg.HEART_RATE_MAX) then
    { ok := false, messages := [], state := st }
  else
    let smoothed :=
      if cfg.HEART_RATE_SMOOTHING then
        smooth_heart_rate cfg.SMOOTHING_WINDOW_SIZE st.heart_rate_history heart_rate
      else (heart_rate, st.heart_rate_history)
    let hr := smoothed.1
    let msgs := buildHeartrates hr st.hb_toggle battery_level
    let toggle' := if env.sendOk hbToggleAddr then ! st.hb_toggle else st.hb_toggle
    { ok := true, messages := msgs,
      state := { hb_toggle := toggle', heart_rate_history := smoothed.2,
                 last_heart_rate := hr } }

/-- The value carried by the `HeartBeatToggle` message of a dispatch
list, if present. -/
def hbValue (msgs : List OscMessage) : Option OscValue :=
  (msgs.find? (fun m => m.address == hbToggleAddr)).map OscMessage.value

/-! ### Concrete fixtures used by witnesses and counterexamples -/

/-- Transport environment in which every send succeeds. -/
def envAllOk : SendEnv := { connected := true, sendOk := fun _ => true }

/-- Transport environment in which exactly the `HeartBeatToggle` send
raises and every other send succeeds. -/
def envTglFail : SendEnv := { connected := true, sendOk := fun a => !(a == hbToggleAddr) }

/-- BLE environment in which every connection strategy fails; strategy
`i` raises error number `i`. -/
def envBleAllFail : ConnectEnv := { attemptOk := fun _ => false, attemptErr := fun i => i }

/-! ## Theorems -/

/-- Helper: the `HeartBeatToggle` message of any built dispatch list
carries the toggle bit the list was built from. -/
lemma hbValue_buildHeartrates (hr : ℤ) (t : Bool) (b : Option ℤ) :
    hbValue (buildHeartrates hr t b) = some (.b t) := by
  cases b <;> rfl

/-- C1: `Config` (config.py lines 4–34) defines no `DATA_TIMEOUT`
attribute, so after any successful BLE connection `connect` raises an
`AttributeError` at line 193 inside its `try` block; the outer handler
converts it into a `False` return.  Hence for every device address,
device name and BLE environment, `connect` returns `False` — no
invocation can ever return `True` and no session ever becomes
active. -/
theorem C1_connect_never_returns_true :
    Config.hasAttr "DATA_TIMEOUT" = false ∧
    ∀ (addr name : String) (env : ConnectEnv), (connect addr name env).ret = false := by
  refine ⟨rfl, fun addr name env => ?_⟩
  unfold connect
  have hda : Config.hasAttr "DATA_TIMEOUT" = false := rfl
  cases h : (strategyLoop env 0 connection_strategies none).connected <;>
    simp [h, hda]

/-- C2: every payload shorter than 2 bytes — in particular `[0x00]` —
fails to decode rather than yielding a heart-rate value: the
spec-level decoder reports `TooShort`, the source parser
`_parse_heart_rate_data` returns its no-value sentinel 0, and the
notification handler consequently emits no sample; likewise every
payload with flag bit 0 set and length below 3. -/
theorem C2_too_short_payload_fails :
    (∀ data : List ℕ, data.length < 2 →
      decodeSpec data = .error .tooShort ∧
      parse_heart_rate_data data = 0 ∧
      ∀ (st : BtState) (now : ℚ),
        heart_rate_notification_handler st now data = ⟨st, []⟩) ∧
    (∀ f b1 : ℕ, f % 2 = 1 →
      decodeSpec [f, b1] = .error .tooShort ∧ parse_heart_rate_data [f, b1] = 0) ∧
    decodeSpec [0x00] = .error .tooShort := by
  refine ⟨?_, ?_, rfl⟩
  · intro data hlen
    match data with
    | [] => exact ⟨rfl, rfl, fun st now => rfl⟩
    | [a] => exact ⟨rfl, rfl, fun st now => rfl⟩
    | a :: b :: rest => exact absurd hlen (by simp [List.length])
  · intro f b1 hf
    exact ⟨by simp [decodeSpec, hf], by simp [parse_heart_rate_data, hf]⟩

/-- C2 witness at payload `[0x00]` (length 1) and at the flagged
2-byte payload `[0x01, 0x50]`. -/
theorem C2_too_short_payload_fails_witness :
    (([0x00] : List ℕ).length < 2 ∧
      decodeSpec [0x00] = .error .tooShort ∧ parse_heart_rate_data [0x00] = 0) ∧
    ((0x01 : ℕ) % 2 = 1 ∧
      decodeSpec [0x01, 0x50] = .error .tooShort ∧
      parse_heart_rate_data [0x01, 0x50] = 0) := by
  have h := C2_too_short_payload_fails
  refine ⟨⟨by decide, (h.1 [0x00] (by decide)).1, (h.1 [0x00] (by decide)).2.1⟩,
          by decide, (h.2.1 0x01 0x50 (by decide)).1, (h.2.1 0x01 0x50 (by decide)).2⟩

/-- C9: a 2-byte payload with flag bit 0 clear decodes to `byte[1]`
unchanged, and a 3-byte payload with flag bit 0 set decodes to the
little-endian unsigned 16-bit integer of bytes 1–2; the example
`[0x01, 0x4B, 0x00]` decodes to 75. -/
theorem C9_decode_value_formats :
    (∀ f b1 : ℕ, f % 2 = 0 → parse_heart_rate_data [f, b1] = b1) ∧
    (∀ f b1 b2 : ℕ, f % 2 = 1 → parse_heart_rate_data [f, b1, b2] = b1 + 256 * b2) ∧
    parse_heart_rate_data [0x01, 0x4B, 0x00] = 75 := by
  refine ⟨fun f b1 hf => ?_, fun f b1 b2 hf => ?_, by decide⟩
  · simp [parse_heart_rate_data, hf]
  · simp [parse_heart_rate_data, hf]

/-- C9 witness at the 8-bit payload `[0x00, 0x50]` and the 16-bit
payload `[0x01, 0x4B, 0x00]`. -/
theorem C9_decode_value_formats_witness :
    ((0x00 : ℕ) % 2 = 0 ∧ parse_heart_rate_data [0x00, 0x50] = 0x50) ∧
    ((0x01 : ℕ) % 2 = 1 ∧ parse_heart_rate_data [0x01, 0x4B, 0x00] = 0x4B + 256 * 0x00) := by
  have h := C9_decode_value_formats
  exact ⟨⟨by decide, h.1 0x00 0x50 (by decide)⟩,
         ⟨by decide, h.2.1 0x01 0x4B 0x00 (by decide)⟩⟩

/-- C10: the notification handler stores the value, refreshes the
staleness timestamp and invokes the registered callback exactly when
the decoded value is strictly positive, and leaves everything
untouched when the decoder returns 0 — which it does for every
too-short payload and for every well-formed payload carrying the
value 0, so all such notifications are silently dropped. -/
theorem C10_handler_drops_nonpositive :
    (∀ (st : BtState) (now : ℚ) (data : List ℕ),
      (0 < parse_heart_rate_data data →
        heart_rate_notification_handler st now data =
          ⟨{ st with last_heart_rate := parse_heart_rate_data data,
                      last_data_time := some now },
            if st.has_heart_rate_callback then [parse_heart_rate_data data] else []⟩) ∧
      (parse_heart_rate_data data = 0 →
        heart_rate_notification_handler st now data = ⟨st, []⟩)) ∧
    (∀ data : List ℕ, data.length < 2 → parse_heart_rate_data data = 0) ∧
    (∀ f b1 : ℕ, f % 2 = 1 → parse_heart_rate_data [f, b1] = 0) ∧
    (∀ (f : ℕ) (rest : List ℕ), f % 2 = 0 →
      parse_heart_rate_data (f :: 0 :: rest) = 0) ∧
    (∀ (f : ℕ) (rest : List ℕ), f % 2 = 1 →
      parse_heart_rate_data (f :: 0 :: 0 :: rest) = 0) := by
  refine ⟨fun st now data => ⟨fun hpos => ?_, fun hzero => ?_⟩, ?_, ?_, ?_, ?_⟩
  · simp [heart_rate_notification_handler, hpos]
  · simp [heart_rate_notification_handler, hzero]
  · intro data hlen
    match data with
    | [] => rfl
    | [a] => rfl
    | a :: b :: rest => exact absurd hlen (by simp [List.length])
  · intro f b1 hf; simp [parse_heart_rate_data, hf]
  · intro f rest hf; simp [parse_heart_rate_data, hf]
  · intro f rest hf; simp [parse_heart_rate_data, hf]

/-- C10 witness: a valid notification `[0x00, 0x50]` is delivered and
time-stamped, and the value-0 notification `[0x00, 0x00]` is silently
dropped. -/
theorem C10_handler_drops_nonpositive_witness :
    (0 < parse_heart_rate_data [0x00, 0x50] ∧
      heart_rate_notification_handler ⟨0, none, true⟩ 7 [0x00, 0x50] =
        ⟨⟨0x50, some 7, true⟩, [0x50]⟩) ∧
    (parse_heart_rate_data [0x00, 0x00] = 0 ∧
      heart_rate_notification_handler ⟨0, none, true⟩ 7 [0x00, 0x00] =
        ⟨⟨0, none, true⟩, []⟩) := by
  have h := C10_handler_drops_nonpositive
  exact ⟨⟨by decide, (h.1 ⟨0, none, true⟩ 7 [0x00, 0x50]).1 (by decide)⟩,
         ⟨by decide, (h.1 ⟨0, none, true⟩ 7 [0x00, 0x00]).2 (by decide)⟩⟩

/-- C5: `connect` tries exactly the ordered strategy timeouts
15 s, 25 s, 35 s, sleeping the fixed 2-second backoff after every
failed attempt except the last; when all three fail it raises the
all-strategies-failed error carrying the last attempt's cause (the
`Failed` transition, converted by the outer handler into the `False`
return) and never reaches `is_connected = True`; when any strategy
succeeds — whichever attempt number it is — it stops there and
executes `is_connected = True` (the `Connected` transition). -/
theorem C5_connect_strategy_sequence (addr name : String) (env : ConnectEnv) :
    connection_strategies = [15, 25, 35] ∧
    (env.attemptOk 0 = false → env.attemptOk 1 = false → env.attemptOk 2 = false →
      (connect addr name env).attempted = [15, 25, 35] ∧
      (connect addr name env).backoffs = [2, 2] ∧
      (connect addr name env).all_failed_raised = true ∧
      (connect addr name env).surfaced_error = some (env.attemptErr 2) ∧
      (connect addr name env).reached_connected = false ∧
      (connect addr name env).ret = false) ∧
    (env.attemptOk 0 = true →
      (connect addr name env).attempted = [15] ∧
      (connect addr name env).backoffs = [] ∧
      (connect addr name env).reached_connected = true ∧
      (connect addr name env).all_failed_raised = false) ∧
    (env.attemptOk 0 = false → env.attemptOk 1 = true →
      (connect addr name env).attempted = [15, 25] ∧
      (connect addr name env).backoffs = [2] ∧
      (connect addr name env).reached_connected = true ∧
      (connect addr name env).all_failed_raised = false) ∧
    (env.attemptOk 0 = false → env.attemptOk 1 = false → env.attemptOk 2 = true →
      (connect addr name env).attempted = [15, 25, 35] ∧
      (connect addr name env).backoffs = [2, 2] ∧
      (connect addr name env).reached_connected = true ∧
      (connect addr name env).all_failed_raised = false) := by
  have hda : Config.hasAttr "DATA_TIMEOUT" = false := rfl
  refine ⟨rfl, ?_, ?_, ?_, ?_⟩
  · intro h0 h1 h2
    simp [connect, connection_strategies, strategyLoop, h0, h1, h2, hda]
  · intro h0
    simp [connect, connection_strategies, strategyLoop, h0, hda]
  · intro h0 h1
    simp [connect, connection_strategies, strategyLoop, h0, h1, hda]
  · intro h0 h1 h2
    simp [connect, connection_strategies, strategyLoop, h0, h1, h2, hda]

/-- C5 witness: with every strategy failing (`envBleAllFail`) the call
raises the all-failed error carrying the last attempt's cause after
trying 15 s, 25 s, 35 s with two 2-second backoffs. -/
theorem C5_connect_strategy_sequence_witness :
    (envBleAllFail.attemptOk 0 = false ∧ envBleAllFail.attemptOk 1 = false ∧
      envBleAllFail.attemptOk 2 = false) ∧
    ((connect "AA:BB" "dev" envBleAllFail).attempted = [15, 25, 35] ∧
      (connect "AA:BB" "dev" envBleAllFail).backoffs = [2, 2] ∧
      (connect "AA:BB" "dev" envBleAllFail).all_failed_raised = true ∧
      (connect "AA:BB" "dev" envBleAllFail).surfaced_error = some (envBleAllFail.attemptErr 2) ∧
      (connect "AA:BB" "dev" envBleAllFail).reached_connected = false ∧
      (connect "AA:BB" "dev" envBleAllFail).ret = false) :=
  ⟨⟨rfl, rfl, rfl⟩,
    (C5_connect_strategy_sequence "AA:BB" "dev" envBleAllFail).2.1 rfl rfl rfl⟩

/-- Helper: the monitor fires at most once per arm cycle (it `break`s
after invoking the timeout callback). -/
lemma monitor_length_le_one (timeout : ℚ) (trace : List (ℚ × Option ℚ)) :
    (monitor_data_timeout timeout trace).length ≤ 1 := by
  induction trace with
  | nil => simp [monitor_data_timeout]
  | cons p rest ih =>
    obtain ⟨now, lastData⟩ := p
    cases lastData with
    | none => simpa [monitor_data_timeout] using ih
    | some t =>
      by_cases h : timeout < now - t
      · simp [monitor_data_timeout, h]
      · simpa [monitor_data_timeout, h] using ih

/-- Helper: if at every check the gap since the last touch is within
the timeout, the monitor never fires. -/
lemma monitor_no_fire (timeout : ℚ) (trace : List (ℚ × Option ℚ))
    (h : ∀ p ∈ trace, ∀ t : ℚ, p.2 = some t → p.1 - t ≤ timeout) :
    monitor_data_timeout timeout trace = [] := by
  induction trace with
  | nil => rfl
  | cons p rest ih =>
    obtain ⟨now, lastData⟩ := p
    have hrest := fun q hq => h q (List.mem_cons_of_mem _ hq)
    cases lastData with
    | none => simpa [monitor_data_timeout] using ih hrest
    | some t =>
      have hle : now - t ≤ timeout := h (now, some t) (List.mem_cons_self _ _) t rfl
      have hnot : ¬ timeout < now - t := not_lt.mpr hle
      simpa [monitor_data_timeout, hnot] using ih hrest

/-- Helper: once touches stop (timestamp pinned at `L`) and checks run
every 5 seconds from `c0`, with the first modeled check no later than
`L + timeout + 5` and enough checks to pass `L + timeout`, the monitor
fires exactly once, at a time in `(L + timeout, L + timeout + 5]`. -/
lemma monitor_fires_once (timeout L : ℚ) (n : ℕ) :
    ∀ c0 : ℚ, c0 ≤ L + timeout + 5 →
      L + timeout < c0 + 5 * ((n : ℚ) - 1) →
      ∃ tf, monitor_data_timeout timeout
              ((checkTimes c0 n).map (fun t => (t, some L))) = [tf] ∧
        L + timeout < tf ∧ tf ≤ L + timeout + 5 := by
  induction n with
  | zero =>
    intro c0 h1 h2
    exfalso
    push_cast at h2
    linarith
  | succ n ih =>
    intro c0 h1 h2
    by_cases h : timeout < c0 - L
    · refine ⟨c0, ?_, by linarith, h1⟩
      simp [checkTimes, monitor_data_timeout, h]
    · have hc : c0 ≤ L + timeout := by
        have := not_lt.mp h
        linarith
      have h2' : L + timeout < (c0 + 5) + 5 * ((n : ℚ) - 1) := by
        push_cast at h2
        linarith
      obtain ⟨tf, hfire, hlo, hhi⟩ := ih (c0 + 5) (by linarith) h2'
      refine ⟨tf, ?_, hlo, hhi⟩
      have hnot : ¬ timeout < c0 - L := h
      simp [checkTimes, monitor_data_timeout, hnot, hfire]

/-- C6: the armed staleness watchdog fires at most once per arm cycle
and then stops checking; if every 5-second check sees a gap within the
timeout (touches more frequent than the timeout, e.g. every 3 s
against 10 s) it never fires; and once touches stop at time `L` it
fires exactly once, strictly after `L + timeout` and no later than
`L + timeout` plus one 5-second check interval. -/
theorem C6_watchdog_one_shot :
    (∀ (timeout : ℚ) (trace : List (ℚ × Option ℚ)),
      (monitor_data_timeout timeout trace).length ≤ 1) ∧
    (∀ (timeout : ℚ) (trace : List (ℚ × Option ℚ)),
      (∀ p ∈ trace, ∀ t : ℚ, p.2 = some t → p.1 - t ≤ timeout) →
      monitor_data_timeout timeout trace = []) ∧
    (∀ (timeout L c0 : ℚ) (n : ℕ),
      c0 ≤ L + timeout + 5 →
      L + timeout < c0 + 5 * ((n : ℚ) - 1) →
      ∃ tf, monitor_data_timeout timeout
              ((checkTimes c0 n).map (fun t => (t, some L))) = [tf] ∧
        L + timeout < tf ∧ tf ≤ L + timeout + 5) ∧
    monitor_data_timeout 10
      [(5, some 3), (10, some 9), (15, some 15),
       (20, some 18), (25, some 24), (30, some 30)] = [] :=
  ⟨monitor_length_le_one,
   monitor_no_fire,
   fun timeout L c0 n h1 h2 => monitor_fires_once timeout L n c0 h1 h2,
   by norm_num [monitor_data_timeout]⟩

/-- C6 witness: timeout 10 s, last touch at 9 s, checks from 5 s: the
watchdog fires exactly once, at 20 s — within 15 s of the last touch —
and the 3-second-touch trace over a 30 s window never fires. -/
theorem C6_watchdog_one_shot_witness :
    ((5 : ℚ) ≤ 9 + 10 + 5 ∧ (9 : ℚ) + 10 < 5 + 5 * ((4 : ℕ) - 1 : ℚ) ∧
      ∃ tf, monitor_data_timeout 10 ((checkTimes 5 4).map (fun t => (t, some 9))) = [tf] ∧
        (9 : ℚ) + 10 < tf ∧ tf ≤ 9 + 10 + 5) ∧
    ((∀ p ∈ ([(5, some 3)] : List (ℚ × Option ℚ)),
        ∀ t : ℚ, p.2 = some t → p.1 - t ≤ 10) ∧
      monitor_data_timeout 10 [(5, some 3)] = []) := by
  have h := C6_watchdog_one_shot
  have hyp : ∀ p ∈ ([(5, some 3)] : List (ℚ × Option ℚ)),
      ∀ t : ℚ, p.2 = some t → p.1 - t ≤ 10 := by
    intro p hp t ht
    simp only [List.mem_singleton] at hp
    subst hp
    simp only [Option.some.injEq] at ht
    subst ht
    norm_num
  exact ⟨⟨by norm_num, by norm_num, h.2.2.1 10 9 5 4 (by norm_num) (by norm_num)⟩,
         hyp, h.2.1 10 _ hyp⟩

/-- C4: an out-of-range heart rate is rejected: `send_heart_rate`
returns `False`, attempts no message send, and leaves the whole
encoder state — smoothing window and heartbeat toggle bit included —
exactly as it was. -/
theorem C4_out_of_range_rejected (cfg : ConfigVals) (env : SendEnv) (st : OscState)
    (hr : ℤ) (battery : Option ℤ)
    (h : ¬ (cfg.HEART_RATE_MIN ≤ hr ∧ hr ≤ cfg.HEART_RATE_MAX)) :
    send_heart_rate cfg env st hr battery =
      { ok := false, messages := [], state := st } := by
  by_cases hc : env.connected <;> simp [send_heart_rate, hc, h]

/-- C4 witness: `encode(300, None)` under the default 40–200 range is
rejected with no messages and no state change. -/
theorem C4_out_of_range_rejected_witness :
    ¬ (defaultConfig.HEART_RATE_MIN ≤ (300 : ℤ) ∧
        (300 : ℤ) ≤ defaultConfig.HEART_RATE_MAX) ∧
    send_heart_rate defaultConfig envAllOk initOscState 300 none =
      { ok := false, messages := [], state := initOscState } :=
  ⟨by decide,
   C4_out_of_range_rejected defaultConfig envAllOk initOscState 300 none (by decide)⟩

/-- Helper: the smoothing window never exceeds the configured size. -/
lemma pushWindow_length_le (N : ℕ) (hist : List ℤ) (x : ℤ) :
    (pushWindow N hist x).length ≤ N := by
  simp only [pushWindow, List.length_drop, List.length_append, List.length_singleton]
  omega

/-- C7: with smoothing enabled each accepted raw value is appended to
the bounded window (size never exceeds the configured maximum, the
oldest entry evicted on overflow); a window of exactly one sample
passes the raw value through, and a window of two or more samples
yields the rounded arithmetic mean of the window — so window size 3 on
the raw sequence 60, 80, 100 yields the outputs 60, 70, 80. -/
theorem C7_smoothing_running_mean (N : ℕ) (hist : List ℤ) (x : ℤ) (hN : 0 < N) :
    ((smooth_heart_rate N hist x).2 = pushWindow N hist x ∧
      (smooth_heart_rate N hist x).2.length ≤ N ∧
      (hist.length < N → pushWindow N hist x = hist ++ [x]) ∧
      (hist.length = N → pushWindow N hist x = hist.drop 1 ++ [x]) ∧
      (2 ≤ (pushWindow N hist x).length →
        (smooth_heart_rate N hist x).1 =
          pyRoundDiv (pushWindow N hist x).sum (pushWindow N hist x).length) ∧
      ((pushWindow N hist x).length = 1 → (smooth_heart_rate N hist x).1 = x)) ∧
    (smooth_heart_rate 3 [] 60 = (60, [60]) ∧
      smooth_heart_rate 3 [60] 80 = (70, [60, 80]) ∧
      smooth_heart_rate 3 [60, 80] 100 = (80, [60, 80, 100])) := by
  refine ⟨⟨?_, ?_, ?_, ?_, ?_, ?_⟩, by decide, by decide, by decide⟩
  · by_cases h2 : (pushWindow N hist x).length < 2 <;> simp [smooth_heart_rate, h2]
  · have : (smooth_heart_rate N hist x).2 = pushWindow N hist x := by
      by_cases h2 : (pushWindow N hist x).length < 2 <;> simp [smooth_heart_rate, h2]
    rw [this]
    exact pushWindow_length_le N hist x
  · intro hlt
    have h0 : (hist ++ [x]).length - N = 0 := by
      simp only [List.length_append, List.length_singleton]
      omega
    show List.drop ((hist ++ [x]).length - N) (hist ++ [x]) = hist ++ [x]
    rw [h0, List.drop_zero]
  · intro heq
    have h1 : (hist ++ [x]).length - N = 1 := by
      simp only [List.length_append, List.length_singleton]
      omega
    show List.drop ((hist ++ [x]).length - N) (hist ++ [x]) = List.drop 1 hist ++ [x]
    rw [h1, List.drop_append_of_le_length (by omega)]
  · intro hge
    have h2 : ¬ (pushWindow N hist x).length < 2 := by omega
    simp [smooth_heart_rate, h2]
  · intro h1
    have h2 : (pushWindow N hist x).length < 2 := by omega
    simp [smooth_heart_rate, h2]

/-- C7 witness: window size 3, feeding 80 into the one-sample window
`[60]`: the value is appended and the output is the rounded mean. -/
theorem C7_smoothing_running_mean_witness :
    0 < 3 ∧ ([60] : List ℤ).length < 3 ∧ 2 ≤ (pushWindow 3 [60] 80).length ∧
    pushWindow 3 [60] 80 = [60] ++ [80] ∧
    (smooth_heart_rate 3 [60] 80).1 =
      pyRoundDiv (pushWindow 3 [60] 80).sum (pushWindow 3 [60] 80).length := by
  have h := C7_smoothing_running_mean 3 [60] 80 (by decide)
  exact ⟨by decide, by decide, by decide,
         h.1.2.2.1 (by decide), h.1.2.2.2.2.1 (by decide)⟩

/-- C8: for every accepted heart rate with smoothing disabled, one
`send_heart_rate` call attempts exactly the seven messages in fixed
order — `Heartrate` and `HeartRateFloat` as `h/127 - 1`, `Heartrate2`
and `HeartRateFloat01` as `h/255`, `Heartrate3` and `HeartRateInt` as
the integer `h`, then `HeartBeatToggle` with the current toggle bit —
and, when a battery level is supplied, an eighth `BluetoothBattery`
message valued `battery/100`. -/
theorem C8_fixed_message_fanout (cfg : ConfigVals) (env : SendEnv) (st : OscState)
    (hr : ℤ) (battery : Option ℤ)
    (hc : env.connected = true)
    (hmin : cfg.HEART_RATE_MIN ≤ hr) (hmax : hr ≤ cfg.HEART_RATE_MAX)
    (hs : cfg.HEART_RATE_SMOOTHING = false) :
    (send_heart_rate cfg env st hr battery).ok = true ∧
    (send_heart_rate cfg env st hr battery).messages =
      [{ address := "/avatar/parameters/Heartrate", value := .f ((hr : ℚ) / 127 - 1) },
       { address := "/avatar/parameters/HeartRateFloat", value := .f ((hr : ℚ) / 127 - 1) },
       { address := "/avatar/parameters/Heartrate2", value := .f ((hr : ℚ) / 255) },
       { address := "/avatar/parameters/HeartRateFloat01", value := .f ((hr : ℚ) / 255) },
       { address := "/avatar/parameters/Heartrate3", value := .i hr },
       { address := "/avatar/parameters/HeartRateInt", value := .i hr },
       { address := hbToggleAddr, value := .b st.hb_toggle }] ++
      (match battery with
       | some b => [{ address := "/avatar/parameters/BluetoothBattery",
                      value := .f ((b : ℚ) / 100) }]
       | none => []) := by
  constructor <;> simp [send_heart_rate, buildHeartrates, hc, hs, hmin, hmax]

/-- C8 witness: `encode(80, None)` with smoothing disabled emits the
seven messages in order with `Heartrate = 80/127 - 1` and
`Heartrate3 = 80`. -/
theorem C8_fixed_message_fanout_witness :
    envAllOk.connected = true ∧
    defaultConfig.HEART_RATE_MIN ≤ (80 : ℤ) ∧
    (80 : ℤ) ≤ defaultConfig.HEART_RATE_MAX ∧
    defaultConfig.HEART_RATE_SMOOTHING = false ∧
    (send_heart_rate defaultConfig envAllOk initOscState 80 none).ok = true ∧
    (send_heart_rate defaultConfig envAllOk initOscState 80 none).messages =
      [{ address := "/avatar/parameters/Heartrate", value := .f ((80 : ℚ) / 127 - 1) },
       { address := "/avatar/parameters/HeartRateFloat", value := .f ((80 : ℚ) / 127 - 1) },
       { address := "/avatar/parameters/Heartrate2", value := .f ((80 : ℚ) / 255) },
       { address := "/avatar/parameters/HeartRateFloat01", value := .f ((80 : ℚ) / 255) },
       { address := "/avatar/parameters/Heartrate3", value := .i 80 },
       { address := "/avatar/parameters/HeartRateInt", value := .i 80 },
       { address := hbToggleAddr, value := .b false }] :=
  ⟨rfl, by decide, by decide, rfl,
   (C8_fixed_message_fanout defaultConfig envAllOk initOscState 80 none rfl
      (by decide) (by decide) rfl).1,
   (C8_fixed_message_fanout defaultConfig envAllOk initOscState 80 none rfl
      (by decide) (by decide) rfl).2⟩

/-- C3 counterexample: the toggle flip of osc_client.py line 141 sits
inside the per-message `try` after `send_message`, so when the
transport send of the `HeartBeatToggle` message raises, the flip is
skipped.  Two consecutive accepted encode calls (both return `True`)
then carry the same `HeartBeatToggle` value `false` twice in a row,
refuting the claim that the values alternate and that the flip happens
once per encode call independent of per-message send success. -/
theorem C3_toggle_counterexample :
    (send_heart_rate defaultConfig envTglFail initOscState 80 none).ok = true ∧
    hbValue (send_heart_rate defaultConfig envTglFail initOscState 80 none).messages =
      some (.b false) ∧
    (send_heart_rate defaultConfig envTglFail initOscState 80 none).state.hb_toggle
      = false ∧
    (send_heart_rate defaultConfig envAllOk
        (send_heart_rate defaultConfig envTglFail initOscState 80 none).state
        80 none).ok = true ∧
    hbValue (send_heart_rate defaultConfig envAllOk
        (send_heart_rate defaultConfig envTglFail initOscState 80 none).state
        80 none).messages = some (.b false) :=
  ⟨rfl, rfl, rfl, rfl, rfl⟩

/-- C3 amended: each encode call dispatches `HeartBeatToggle` carrying
the pre-call toggle bit, and flips the bit exactly when the transport
send of that message succeeds; consequently two consecutive accepted
encode calls produce alternating toggle values provided the first
call's `HeartBeatToggle` send succeeded. -/
theorem C3_toggle_flip_on_send_success (cfg : ConfigVals) (env env2 env3 : SendEnv)
    (st : OscState) (h1 h2 : ℤ)
    (hc : env.connected = true)
    (ha1 : cfg.HEART_RATE_MIN ≤ h1) (hb1 : h1 ≤ cfg.HEART_RATE_MAX)
    (hc2 : env2.connected = true)
    (ha2 : cfg.HEART_RATE_MIN ≤ h2) (hb2 : h2 ≤ cfg.HEART_RATE_MAX)
    (hc3 : env3.connected = true)
    (hok : env.sendOk hbToggleAddr = true) :
    (send_heart_rate cfg env3 st h1 none).state.hb_toggle =
      (if env3.sendOk hbToggleAddr then ! st.hb_toggle else st.hb_toggle) ∧
    hbValue (send_heart_rate cfg env st h1 none).messages =
      some (.b st.hb_toggle) ∧
    hbValue (send_heart_rate cfg env2
        (send_heart_rate cfg env st h1 none).state h2 none).messages =
      some (.b (! st.hb_toggle)) := by
  refine ⟨?_, ?_, ?_⟩
  · simp [send_heart_rate, hc3, ha1, hb1]
  · simp [send_heart_rate, hc, ha1, hb1, hbValue_buildHeartrates]
  · simp [send_heart_rate, hc, hc2, ha1, hb1, ha2, hb2, hbValue_buildHeartrates, hok]

/-- C3 amended witness: from the initial state, two consecutive fully
successful `encode(80, None)` calls carry `HeartBeatToggle` values
`false` then `true`, and an encode whose toggle send fails leaves the
bit unflipped. -/
theorem C3_toggle_flip_on_send_success_witness :
    (envAllOk.connected = true ∧
      defaultConfig.HEART_RATE_MIN ≤ (80 : ℤ) ∧
      (80 : ℤ) ≤ defaultConfig.HEART_RATE_MAX ∧
      envTglFail.connected = true ∧
      envAllOk.sendOk hbToggleAddr = true) ∧
    ((send_heart_rate defaultConfig envTglFail initOscState 80 none).state.hb_toggle =
      (if envTglFail.sendOk hbToggleAddr then ! initOscState.hb_toggle
       else initOscState.hb_toggle) ∧
     hbValue (send_heart_rate defaultConfig envAllOk initOscState 80 none).messages =
       some (.b initOscState.hb_toggle) ∧
     hbValue (send_heart_rate defaultConfig envAllOk
         (send_heart_rate defaultConfig envAllOk initOscState 80 none).state
         80 none).messages =
       some (.b (! initOscState.hb_toggle))) :=
  ⟨⟨rfl, by decide, by decide, rfl, rfl⟩,
   C3_toggle_flip_on_send_success defaultConfig envAllOk envAllOk envTglFail
     initOscState 80 80 rfl (by decide) (by decide) rfl (by decide) (by decide)
     rfl rfl⟩

end BtHr
